import Mathlib

/-!
Shallow embedding of `src/reddit_scraper.py` (class `RedditScraper` and the
command-line `main`).  The external API collaborator (the `praw` client) is
modelled as an opaque behaviour parameter: for each query it yields a finite
sequence of raw post objects and may then raise an exception.  The Python
exception channel is embedded as `Except String`; `try/except` becomes the
combinator `pyTry`.  Console `print` calls become lists of diagnostic
strings carried in results, and the two file writers record the would-be
file write (kind, path, table of cells) instead of touching a file system.
-/

namespace RedditScraper

/-- Time filters accepted by the scraper, the `choices` list of the
`--time-filter` command-line argument (reddit_scraper.py line 176). -/
inductive TimeFilter where
  | day
  | week
  | month
  | year
  | all
deriving DecidableEq

/-- Raw post object handed over by the API collaborator, with exactly the
attributes the scraper reads (reddit_scraper.py lines 44-64): `id`, `title`,
`score`, `num_comments`, `created_utc`, `url`, `permalink`, `is_self`,
`selftext`, and `author` (absent — `None` in Python — for removed accounts;
when present the scraper reads `author.name`). -/
structure RawPost where
  id : String
  title : String
  score : Int
  num_comments : Int
  created_utc : Int
  url : String
  permalink : String
  is_self : Bool
  selftext : String
  author : Option String
deriving DecidableEq

/-- One normalized post record: the dictionary built in the loop body of
`get_top_posts` (lines 42-64), with fields in Python dict insertion order. -/
structure PostData where
  subreddit : String
  post_id : String
  title : String
  score : Int
  num_comments : Int
  created_utc : Int
  url : String
  permalink : String
  is_self_post : Bool
  selftext : String
  author : String
deriving DecidableEq

/-- Loop body of `get_top_posts` (lines 42-64): build one `PostData` from one
raw post.  `created_utc` is kept as the epoch value; the Python code wraps it
in `datetime.fromtimestamp`, an injective representation change that no
downstream decision depends on. -/
def buildPostData (subreddit_name : String) (post : RawPost) : PostData :=
  { subreddit := subreddit_name
    post_id := post.id
    title := post.title
    score := post.score
    num_comments := post.num_comments
    created_utc := post.created_utc
    url := post.url
    permalink := "https://www.reddit.com" ++ post.permalink
    is_self_post := post.is_self
    selftext := if post.is_self then post.selftext else ""
    author :=
      match post.author with
      | some name => name
      | none => "[deleted]" }

/-- Behaviour of one generator `subreddit.top(time_filter=..., limit=...)`
(line 40): the posts it yields, in order, followed by an optional raised
exception (carrying its message).  `raised = none` models normal exhaustion
of the iterator. -/
structure TopStream where
  yielded : List RawPost
  raised : Option String

/-- Behaviour of the API collaborator: the stream produced for each
subreddit name, limit and time filter.  The limit is an arbitrary Python
integer forwarded opaquely to the collaborator. -/
def RedditClient : Type := String → Int → TimeFilter → TopStream

/-- Embedding of a Python computation that either returns normally or
raises an exception with a message. -/
abbrev Py (α : Type) : Type := Except String α

/-- Embedding of `try: body except Exception as e: handler(e)` where the
handler returns normally. -/
def pyTry {α : Type} (body : Py α) (handler : String → α) : α :=
  match body with
  | Except.ok a => a
  | Except.error e => handler e

/-- Body of the `try` block of `get_top_posts` (lines 40-66): consume the
generator post by post, appending one built record per yielded post to the
accumulator; when the generator raises after its yields, the exception
propagates and the accumulated list is abandoned. -/
def fetchLoop (subreddit_name : String) :
    List RawPost → Option String → List PostData → Py (List PostData)
  | [], none, posts => Except.ok posts
  | [], some e, _posts => Except.error e
  | post :: rest, raised, posts =>
      fetchLoop subreddit_name rest raised (posts ++ [buildPostData subreddit_name post])

/-- Value returned by one call of `get_top_posts` (lines 24-73) together
with the diagnostics it prints.  The `try/except` catches any exception from
the iteration, prints an error diagnostic and returns the empty list
(lines 71-73); on success it prints the success diagnostic and returns the
built records (lines 68-69). -/
def get_top_posts_result (client : RedditClient) (subreddit_name : String)
    (limit : Int) (time_filter : TimeFilter) : List PostData × List String :=
  let stream := client subreddit_name limit time_filter
  pyTry
    ((fetchLoop subreddit_name stream.yielded stream.raised []).map
      (fun posts =>
        (posts,
          ["Successfully scraped " ++ toString posts.length ++ " posts from r/"
            ++ subreddit_name])))
    (fun e => ([], ["Error scraping r/" ++ subreddit_name ++ ": " ++ e]))

/-- `get_top_posts` as seen from its caller in the exception channel: since
every exception of the body is caught inside the function, the call itself
always returns normally. -/
def get_top_posts (client : RedditClient) (subreddit_name : String)
    (limit : Int) (time_filter : TimeFilter) : Py (List PostData × List String) :=
  Except.ok (get_top_posts_result client subreddit_name limit time_filter)

/-- In-memory table built by `pd.DataFrame(all_posts)` (lines 98-103): a
list of uniform records.  `pd.DataFrame()` with no argument is `mk []`;
`df.empty` is emptiness of the row list. -/
structure DataFrame where
  rows : List PostData
deriving DecidableEq

/-- Column labels of the frame, in Python dict insertion order of the loop
body of `get_top_posts` (the nine literal keys of lines 42-52, then
`selftext` of lines 55-58, then `author` of lines 61-64); pandas takes the
column order of `pd.DataFrame(list_of_dicts)` from the keys of the records. -/
def dataFrameColumns : List String :=
  ["subreddit", "post_id", "title", "score", "num_comments", "created_utc",
   "url", "permalink", "is_self_post", "selftext", "author"]

/-- Cell row serialized for one record, one cell per column of
`dataFrameColumns` in the same order.  Numeric and boolean cells hold a
string rendering of the value; the exact rendering is not load-bearing. -/
def PostData.toRow (p : PostData) : List String :=
  [p.subreddit, p.post_id, p.title, toString p.score, toString p.num_comments,
   toString p.created_utc, p.url, p.permalink, toString p.is_self_post,
   p.selftext, p.author]

/-- Table of cells written by `df.to_excel(file, index=False)` and
`df.to_csv(file, index=False)` (lines 131 and 161): a header row of the
column labels, then one row per record in order, and no index column. -/
def DataFrame.table (df : DataFrame) : List (List String) :=
  dataFrameColumns :: df.rows.map PostData.toRow

/-- Loop of `scrape_multiple_subreddits` (lines 87-95): fold over the
subreddit names in order, printing the per-forum banner, calling
`get_top_posts` and extending the running record list with its result.
The `time.sleep(2)` of line 95 has no observable effect in this model. -/
def scrapeFold (client : RedditClient) (limit : Int) (time_filter : TimeFilter) :
    List String → List PostData × List String → Py (List PostData × List String)
  | [], acc => Except.ok acc
  | s :: rest, acc =>
      match get_top_posts client s limit time_filter with
      | Except.error e => Except.error e
      | Except.ok pr =>
          scrapeFold client limit time_filter rest
            (acc.1 ++ pr.1, acc.2 ++ ("Scraping r/" ++ s ++ "...") :: pr.2)

/-- `scrape_multiple_subreddits` (lines 75-103): aggregate all per-forum
record lists, then build a `DataFrame` from them when any record was
collected, or print a diagnostic and return the empty frame otherwise. -/
def scrape_multiple_subreddits (client : RedditClient) (subreddit_list : List String)
    (limit : Int) (time_filter : TimeFilter) : Py (DataFrame × List String) :=
  match scrapeFold client limit time_filter subreddit_list ([], []) with
  | Except.error e => Except.error e
  | Except.ok r =>
      if r.1.isEmpty then
        Except.ok (DataFrame.mk [], r.2 ++ ["No posts were collected."])
      else
        Except.ok (DataFrame.mk r.1, r.2)

/-- Which serializer a save operation used: `df.to_excel` or `df.to_csv`. -/
inductive OutKind where
  | excel
  | csv
deriving DecidableEq

/-- Observable outcome of one call of `save_to_excel` or `save_to_csv`:
the returned path (`None` becomes `none`), the file write performed, if
any, as serializer kind, destination path and table of cells, and the
printed diagnostics.  Directory creation (lines 126-128 and 156-158) has no
further observable effect and is not recorded. -/
structure SaveResult where
  returnedPath : Option String
  written : Option (OutKind × String × List (List String))
  diagnostics : List String
deriving DecidableEq

/-- `save_to_excel` (lines 105-133).  `strftime` stands for
`datetime.now().strftime`, applied to the format string of line 122. -/
def save_to_excel (strftime : String → String) (df : DataFrame)
    (output_file : Option String) : SaveResult :=
  if df.rows.isEmpty then
    { returnedPath := none, written := none, diagnostics := ["No data to save."] }
  else
    let file :=
      match output_file with
      | none => "reddit_top_posts_" ++ strftime "%Y%m%d_%H%M%S" ++ ".xlsx"
      | some f => f
    { returnedPath := some file
      written := some (OutKind.excel, file, df.table)
      diagnostics := ["Data saved to " ++ file] }

/-- `save_to_csv` (lines 135-163), identical to `save_to_excel` up to the
serializer and the extension of the synthesized default name (line 153). -/
def save_to_csv (strftime : String → String) (df : DataFrame)
    (output_file : Option String) : SaveResult :=
  if df.rows.isEmpty then
    { returnedPath := none, written := none, diagnostics := ["No data to save."] }
  else
    let file :=
      match output_file with
      | none => "reddit_top_posts_" ++ strftime "%Y%m%d_%H%M%S" ++ ".csv"
      | some f => f
    { returnedPath := some file
      written := some (OutKind.csv, file, df.table)
      diagnostics := ["Data saved to " ++ file] }

/-- Parsed command-line arguments (lines 170-187).  `argparse` guarantees
`subreddits` is supplied and `time_filter` is one of the five choices;
`client_id`, `client_secret` and `user_agent` are forwarded opaquely to the
collaborator and do not influence the embedded control flow. -/
structure Args where
  subreddits : List String
  limit : Int
  time_filter : TimeFilter
  output : Option String
  client_id : String
  client_secret : String
  user_agent : String

/-- Embedding of the Python string method `out.endswith(t)` used on
lines 205 and 207: the characters of `t` are a suffix of the characters of
the tested string. -/
def pyEndswith (s t : String) : Bool :=
  t.data.isSuffixOf s.data

/-- `main` (lines 166-214) after argument parsing: scrape, then dispatch on
the extension of `--output` (line 204-214): `.xlsx` to the spreadsheet
writer, `.csv` to the delimited-text writer, any other supplied path to the
delimited-text writer with `.csv` appended after an extra diagnostic, and
no supplied path to the spreadsheet writer with the synthesized name.
Returns the save outcome and the scraping diagnostics. -/
def main (client : RedditClient) (strftime : String → String) (args : Args) :
    Py (SaveResult × List String) :=
  match scrape_multiple_subreddits client args.subreddits args.limit args.time_filter with
  | Except.error e => Except.error e
  | Except.ok scr =>
      match args.output with
      | some out =>
          if pyEndswith out ".xlsx" then
            Except.ok (save_to_excel strftime scr.1 (some out), scr.2)
          else if pyEndswith out ".csv" then
            Except.ok (save_to_csv strftime scr.1 (some out), scr.2)
          else
            let r := save_to_csv strftime scr.1 (some (out ++ ".csv"))
            Except.ok
              ({ r with
                  diagnostics := "Unsupported output format. Using CSV format." :: r.diagnostics },
                scr.2)
      | none => Except.ok (save_to_excel strftime scr.1 none, scr.2)

/-- Exit status of the process: 0 when `main` returns without an uncaught
exception, nonzero when an exception escapes (CPython reports an uncaught
exception with exit status 1). -/
def process_exit_code (client : RedditClient) (strftime : String → String)
    (args : Args) : Nat :=
  match main client strftime args with
  | Except.ok _ => 0
  | Except.error _ => 1

/-- Order-preserving concatenation of the per-forum record lists, the
reference value the aggregation claims compare against. -/
def aggregated_records (client : RedditClient) (limit : Int) (time_filter : TimeFilter)
    (subreddit_list : List String) : List PostData :=
  (subreddit_list.map (fun s => (get_top_posts_result client s limit time_filter).1)).flatten

/-- Dispatch of lines 204-214 expressed as a function of the aggregated
frame and the optional output path, used to phrase facts about `main`. -/
def mainDispatch (strftime : String → String) (df : DataFrame) (output : Option String) :
    SaveResult :=
  match output with
  | some out =>
      if pyEndswith out ".xlsx" then save_to_excel strftime df (some out)
      else if pyEndswith out ".csv" then save_to_csv strftime df (some out)
      else
        let r := save_to_csv strftime df (some (out ++ ".csv"))
        { r with
            diagnostics := "Unsupported output format. Using CSV format." :: r.diagnostics }
  | none => save_to_excel strftime df none

lemma fetchLoop_raised (s e : String) :
    ∀ (l : List RawPost) (acc : List PostData), fetchLoop s l (some e) acc = Except.error e := by
  intro l
  induction l with
  | nil => intro acc; rfl
  | cons p rest ih => intro acc; simpa [fetchLoop] using ih _

lemma fetchLoop_exhausted (s : String) :
    ∀ (l : List RawPost) (acc : List PostData),
      fetchLoop s l none acc = Except.ok (acc ++ l.map (buildPostData s)) := by
  intro l
  induction l with
  | nil => intro acc; simp [fetchLoop]
  | cons p rest ih => intro acc; simp [fetchLoop, ih]

lemma get_top_posts_result_of_raised (client : RedditClient) (s : String) (limit : Int)
    (tf : TimeFilter) (e : String) (h : (client s limit tf).raised = some e) :
    get_top_posts_result client s limit tf = ([], ["Error scraping r/" ++ s ++ ": " ++ e]) := by
  simp [get_top_posts_result, h, fetchLoop_raised, pyTry, Except.map]

lemma scrapeFold_spec (client : RedditClient) (limit : Int) (tf : TimeFilter) :
    ∀ (l : List String) (acc : List PostData × List String),
      ∃ d, scrapeFold client limit tf l acc =
        Except.ok (acc.1 ++ aggregated_records client limit tf l, d) := by
  intro l
  induction l with
  | nil => intro acc; exact ⟨acc.2, by simp [scrapeFold, aggregated_records]⟩
  | cons s rest ih =>
      intro acc
      obtain ⟨d, hd⟩ := ih (acc.1 ++ (get_top_posts_result client s limit tf).1,
        acc.2 ++ ("Scraping r/" ++ s ++ "...") :: (get_top_posts_result client s limit tf).2)
      refine ⟨d, ?_⟩
      have hstep : scrapeFold client limit tf (s :: rest) acc =
          scrapeFold client limit tf rest
            (acc.1 ++ (get_top_posts_result client s limit tf).1,
             acc.2 ++ ("Scraping r/" ++ s ++ "...") :: (get_top_posts_result client s limit tf).2) := rfl
      rw [hstep, hd]
      simp [aggregated_records]

lemma scrape_spec (client : RedditClient) (subreddit_list : List String) (limit : Int)
    (tf : TimeFilter) :
    ∃ d, scrape_multiple_subreddits client subreddit_list limit tf =
      Except.ok (DataFrame.mk (aggregated_records client limit tf subreddit_list), d) := by
  obtain ⟨d, hd⟩ := scrapeFold_spec client limit tf subreddit_list ([], [])
  unfold scrape_multiple_subreddits
  rw [hd]
  by_cases hA : aggregated_records client limit tf subreddit_list = []
  · exact ⟨d ++ ["No posts were collected."], by simp [hA]⟩
  · exact ⟨d, by simp [hA]⟩

lemma main_spec (client : RedditClient) (strftime : String → String) (args : Args) :
    ∃ d, main client strftime args =
      Except.ok
        (mainDispatch strftime
          (DataFrame.mk (aggregated_records client args.limit args.time_filter args.subreddits))
          args.output, d) := by
  obtain ⟨d, hd⟩ := scrape_spec client args.subreddits args.limit args.time_filter
  refine ⟨d, ?_⟩
  unfold main mainDispatch
  rw [hd]
  cases args.output with
  | none => rfl
  | some out =>
      by_cases h1 : pyEndswith out ".xlsx"
      · simp [h1]
      · by_cases h2 : pyEndswith out ".csv" <;> simp [h1, h2]

/-- Destination `save_to_excel` resolves from its optional argument
(lines 121-123). -/
def excelDestination (strftime : String → String) : Option String → String
  | none => "reddit_top_posts_" ++ strftime "%Y%m%d_%H%M%S" ++ ".xlsx"
  | some f => f

/-- Destination `save_to_csv` resolves from its optional argument
(lines 151-153). -/
def csvDestination (strftime : String → String) : Option String → String
  | none => "reddit_top_posts_" ++ strftime "%Y%m%d_%H%M%S" ++ ".csv"
  | some f => f

lemma save_to_excel_nonempty (strftime : String → String) (df : DataFrame)
    (out : Option String) (h : df.rows ≠ []) :
    save_to_excel strftime df out =
      { returnedPath := some (excelDestination strftime out)
        written := some (OutKind.excel, excelDestination strftime out, df.table)
        diagnostics := ["Data saved to " ++ excelDestination strftime out] } := by
  have hE : df.rows.isEmpty = false := by simp [List.isEmpty_iff, h]
  cases out with
  | none => simp [save_to_excel, hE, excelDestination]
  | some f => simp [save_to_excel, hE, excelDestination]

lemma save_to_csv_nonempty (strftime : String → String) (df : DataFrame)
    (out : Option String) (h : df.rows ≠ []) :
    save_to_csv strftime df out =
      { returnedPath := some (csvDestination strftime out)
        written := some (OutKind.csv, csvDestination strftime out, df.table)
        diagnostics := ["Data saved to " ++ csvDestination strftime out] } := by
  have hE : df.rows.isEmpty = false := by simp [List.isEmpty_iff, h]
  cases out with
  | none => simp [save_to_csv, hE, csvDestination]
  | some f => simp [save_to_csv, hE, csvDestination]

/-- Concrete raw post used by the witnesses: a link post with an author. -/
def samplePost : RawPost :=
  { id := "abc123", title := "Hello world", score := 10, num_comments := 3,
    created_utc := 1700000000, url := "https://example.com/x",
    permalink := "/r/test/comments/abc123/hello/", is_self := false,
    selftext := "stray body", author := some "alice" }

/-- Record the sample post normalizes to under forum name `test`. -/
def sampleRecord : PostData := buildPostData "test" samplePost

/-- Client behaviour that yields the sample post and finishes normally. -/
def okClient : RedditClient := fun _ _ _ => { yielded := [samplePost], raised := none }

/-- Client behaviour that yields the sample post and then raises. -/
def failClient : RedditClient := fun _ _ _ =>
  { yielded := [samplePost], raised := some "received 404 HTTP response" }

/-- Fixed stand-in for `datetime.now().strftime` used by the witnesses. -/
def fixedStrftime : String → String := fun _ => "20240101_120000"

/-- C1: every error raised by the API collaborator during a fetch is caught
inside `get_top_posts`, which returns normally with an error diagnostic and
an empty record list for that forum, and the batch over the remaining
forums continues: scraping a list starting at the failing forum yields
exactly the records aggregated from the remaining forums. -/
theorem get_top_posts_catches_api_errors (client : RedditClient) (s : String)
    (limit : Int) (tf : TimeFilter) (e : String)
    (h : (client s limit tf).raised = some e) :
    get_top_posts client s limit tf =
      Except.ok ([], ["Error scraping r/" ++ s ++ ": " ++ e]) ∧
    (∀ rest : List String, ∃ d,
      scrape_multiple_subreddits client (s :: rest) limit tf =
        Except.ok (DataFrame.mk (aggregated_records client limit tf rest), d)) := by
  have hr := get_top_posts_result_of_raised client s limit tf e h
  constructor
  · rw [get_top_posts, hr]
  · intro rest
    obtain ⟨d, hd⟩ := scrape_spec client (s :: rest) limit tf
    refine ⟨d, ?_⟩
    rw [hd]
    have hagg : aggregated_records client limit tf (s :: rest) =
        aggregated_records client limit tf rest := by
      simp [aggregated_records, hr]
    rw [hagg]

/-- Witness for C1: a concrete client raising on every query. -/
theorem get_top_posts_catches_api_errors_witness :
    get_top_posts failClient "test" 25 TimeFilter.week =
      Except.ok ([], ["Error scraping r/test: received 404 HTTP response"]) ∧
    (∃ d, scrape_multiple_subreddits failClient ["test", "lean"] 25 TimeFilter.week =
      Except.ok (DataFrame.mk (aggregated_records failClient 25 TimeFilter.week ["lean"]), d)) := by
  have h := get_top_posts_catches_api_errors failClient "test" 25 TimeFilter.week
    "received 404 HTTP response" rfl
  exact ⟨h.1, h.2 ["lean"]⟩

/-- C2: the aggregated frame returned by `scrape_multiple_subreddits` holds
exactly the order-preserving concatenation of the per-forum record lists of
`get_top_posts`, with no reordering or deduplication, and the call returns
the frame rather than failing; when every per-forum list is empty it
returns the empty frame. -/
theorem scrape_concatenates_in_order (client : RedditClient) (subreddit_list : List String)
    (limit : Int) (tf : TimeFilter) :
    ∃ d, scrape_multiple_subreddits client subreddit_list limit tf =
        Except.ok (DataFrame.mk
          ((subreddit_list.map
            (fun s => (get_top_posts_result client s limit tf).1)).flatten), d) ∧
      ((∀ s ∈ subreddit_list, (get_top_posts_result client s limit tf).1 = []) →
        scrape_multiple_subreddits client subreddit_list limit tf =
          Except.ok (DataFrame.mk [], d)) := by
  obtain ⟨d, hd⟩ := scrape_spec client subreddit_list limit tf
  refine ⟨d, hd, ?_⟩
  intro hall
  have hnil : aggregated_records client limit tf subreddit_list = [] := by
    simp only [aggregated_records, List.flatten_eq_nil_iff]
    intro x hx
    obtain ⟨s, hs, rfl⟩ := List.mem_map.mp hx
    exact hall s hs
  rw [hd, hnil]

/-- Witness for C2: two forums served by the concrete succeeding client. -/
theorem scrape_concatenates_in_order_witness :
    ∃ d, scrape_multiple_subreddits okClient ["a", "b"] 25 TimeFilter.week =
      Except.ok (DataFrame.mk [buildPostData "a" samplePost, buildPostData "b" samplePost], d) := by
  obtain ⟨d, hd, _⟩ := scrape_concatenates_in_order okClient ["a", "b"] 25 TimeFilter.week
  exact ⟨d, hd⟩

/-- C3: for every client behaviour, clock and argument set the process
completes normally: no exception escapes `main` and the exit status is 0,
also when fetches fail or the aggregate is empty. -/
theorem process_always_exits_zero (client : RedditClient) (strftime : String → String)
    (args : Args) : process_exit_code client strftime args = 0 := by
  obtain ⟨d, hd⟩ := main_spec client strftime args
  simp [process_exit_code, hd]

/-- C10: when the collaborator raises after yielding posts, the records
already built inside the loop are discarded: the loop body propagates the
exception past the accumulated list and `get_top_posts` resolves the forum
to the empty record list, never a partial one. -/
theorem fetch_discards_partial_on_error (client : RedditClient) (s : String)
    (limit : Int) (tf : TimeFilter) (posts : List RawPost) (e : String)
    (hc : client s limit tf = { yielded := posts, raised := some e })
    (hne : posts ≠ []) :
    (get_top_posts_result client s limit tf).1 = [] ∧
    (∀ acc : List PostData, fetchLoop s posts (some e) acc = Except.error e) := by
  refine ⟨?_, fun acc => fetchLoop_raised s e posts acc⟩
  rw [get_top_posts_result_of_raised client s limit tf e (by rw [hc])]

/-- Witness for C10: the concrete failing client yields one post before
raising, and that partial record list is discarded. -/
theorem fetch_discards_partial_on_error_witness :
    (get_top_posts_result failClient "test" 25 TimeFilter.week).1 = [] ∧
    fetchLoop "test" [samplePost] (some "received 404 HTTP response") [sampleRecord] =
      Except.error "received 404 HTTP response" := by
  have h := fetch_discards_partial_on_error failClient "test" 25 TimeFilter.week
    [samplePost] "received 404 HTTP response" rfl (by decide)
  exact ⟨h.1, h.2 [sampleRecord]⟩

/-- C4: exporting a nonempty collection writes, for either output kind, a
header row of the column labels in their fixed order followed by one row
per record in order, each row exactly as wide as the column list (no index
column), so N records yield a table of N+1 rows. -/
theorem export_writes_header_and_rows (strftime : String → String) (df : DataFrame)
    (out : Option String) (h : df.rows ≠ []) :
    (save_to_excel strftime df out).written =
      some (OutKind.excel, excelDestination strftime out, df.table) ∧
    (save_to_csv strftime df out).written =
      some (OutKind.csv, csvDestination strftime out, df.table) ∧
    df.table.length = df.rows.length + 1 ∧
    df.table.head? = some dataFrameColumns ∧
    df.table.tail = df.rows.map PostData.toRow ∧
    (∀ row ∈ df.table, row.length = dataFrameColumns.length) := by
  refine ⟨?_, ?_, ?_, rfl, rfl, ?_⟩
  · rw [save_to_excel_nonempty strftime df out h]
  · rw [save_to_csv_nonempty strftime df out h]
  · simp [DataFrame.table]
  · intro row hrow
    rcases List.mem_cons.mp hrow with hhead | htail
    · rw [hhead]
    · obtain ⟨p, _, rfl⟩ := List.mem_map.mp htail
      rfl

/-- Witness for C4: one record exported with the fixed clock and no
explicit destination gives a two-row table headed by the column labels. -/
theorem export_writes_header_and_rows_witness :
    (DataFrame.mk [sampleRecord]).table.length = 1 + 1 ∧
    (DataFrame.mk [sampleRecord]).table.head? = some dataFrameColumns ∧
    (save_to_excel fixedStrftime (DataFrame.mk [sampleRecord]) none).written =
      some (OutKind.excel, excelDestination fixedStrftime none,
        (DataFrame.mk [sampleRecord]).table) := by
  have h := export_writes_header_and_rows fixedStrftime (DataFrame.mk [sampleRecord]) none
    (by decide)
  exact ⟨h.2.2.1, h.2.2.2.1, h.1⟩

/-- C5: the output kind `main` chooses follows the extension of the
supplied destination path: an `.xlsx` path goes to the spreadsheet writer
on that path, a `.csv` path to the delimited-text writer on that path, and
any other path to the delimited-text writer on the path with `.csv`
appended. -/
theorem output_kind_follows_extension (client : RedditClient) (strftime : String → String)
    (args : Args) (p : String) (hout : args.output = some p)
    (hne : aggregated_records client args.limit args.time_filter args.subreddits ≠ []) :
    ∃ r d, main client strftime args = Except.ok (r, d) ∧
      (pyEndswith p ".xlsx" = true →
        r.written = some (OutKind.excel, p,
          (DataFrame.mk (aggregated_records client args.limit args.time_filter
            args.subreddits)).table)) ∧
      (pyEndswith p ".xlsx" = false → pyEndswith p ".csv" = true →
        r.written = some (OutKind.csv, p,
          (DataFrame.mk (aggregated_records client args.limit args.time_filter
            args.subreddits)).table)) ∧
      (pyEndswith p ".xlsx" = false → pyEndswith p ".csv" = false →
        r.written = some (OutKind.csv, p ++ ".csv",
          (DataFrame.mk (aggregated_records client args.limit args.time_filter
            args.subreddits)).table)) := by
  obtain ⟨d, hd⟩ := main_spec client strftime args
  rw [hout] at hd
  refine ⟨_, d, hd, ?_, ?_, ?_⟩
  · intro h1
    simp only [mainDispatch, h1, if_true]
    rw [save_to_excel_nonempty strftime
      (DataFrame.mk (aggregated_records client args.limit args.time_filter args.subreddits))
      (some p) hne]
    rfl
  · intro h1 h2
    simp only [mainDispatch, h1, h2, Bool.false_eq_true, if_false, if_true]
    rw [save_to_csv_nonempty strftime
      (DataFrame.mk (aggregated_records client args.limit args.time_filter args.subreddits))
      (some p) hne]
    rfl
  · intro h1 h2
    simp only [mainDispatch, h1, h2, Bool.false_eq_true, if_false]
    rw [save_to_csv_nonempty strftime
      (DataFrame.mk (aggregated_records client args.limit args.time_filter args.subreddits))
      (some (p ++ ".csv")) hne]
    rfl

/-- Witness for C5: destination `out.txt` with the succeeding client is
coerced to delimited-text output at `out.txt.csv`. -/
theorem output_kind_follows_extension_witness :
    (main okClient fixedStrftime
        { subreddits := ["test"], limit := 25, time_filter := TimeFilter.week,
          output := some "out.txt", client_id := "id", client_secret := "secret",
          user_agent := "agent" }).map (fun x => x.1.written) =
      Except.ok (some (OutKind.csv, "out.txt.csv",
        (DataFrame.mk (aggregated_records okClient 25 TimeFilter.week ["test"])).table)) := by
  obtain ⟨r, d, hmain, _, _, h3⟩ := output_kind_follows_extension okClient fixedStrftime
    { subreddits := ["test"], limit := 25, time_filter := TimeFilter.week,
      output := some "out.txt", client_id := "id", client_secret := "secret",
      user_agent := "agent" } "out.txt" rfl (by decide)
  rw [hmain, Except.map]
  rw [h3 (by decide) (by decide)]
  rfl

/-- C6: exporting an empty collection reports a diagnostic, performs no
file write and returns no path, for both output kinds. -/
theorem export_empty_writes_nothing (strftime : String → String) (df : DataFrame)
    (out : Option String) (h : df.rows = []) :
    save_to_excel strftime df out =
      { returnedPath := none, written := none, diagnostics := ["No data to save."] } ∧
    save_to_csv strftime df out =
      { returnedPath := none, written := none, diagnostics := ["No data to save."] } := by
  constructor <;> simp [save_to_excel, save_to_csv, h]

/-- Witness for C6: the empty frame at a concrete destination. -/
theorem export_empty_writes_nothing_witness :
    save_to_excel fixedStrftime (DataFrame.mk []) (some "out.xlsx") =
      { returnedPath := none, written := none, diagnostics := ["No data to save."] } ∧
    save_to_csv fixedStrftime (DataFrame.mk []) (some "out.xlsx") =
      { returnedPath := none, written := none, diagnostics := ["No data to save."] } :=
  export_empty_writes_nothing fixedStrftime (DataFrame.mk []) (some "out.xlsx") rfl

/-- C7: the record builder substitutes the literal `[deleted]` for the
author name when the raw post has no author, and copies the author name
when one is present. -/
theorem builder_author_placeholder (s : String) (post : RawPost) :
    (post.author = none → (buildPostData s post).author = "[deleted]") ∧
    (∀ a : String, post.author = some a → (buildPostData s post).author = a) := by
  constructor
  · intro h; simp [buildPostData, h]
  · intro a h; simp [buildPostData, h]

/-- Witness for C7: the sample post with and without an author. -/
theorem builder_author_placeholder_witness :
    (buildPostData "test" { samplePost with author := none }).author = "[deleted]" ∧
    (buildPostData "test" samplePost).author = "alice" :=
  ⟨(builder_author_placeholder "test" { samplePost with author := none }).1 rfl,
   (builder_author_placeholder "test" samplePost).2 "alice" rfl⟩

/-- C8: the record builder blanks the body text of a non-self post, even
when the raw object carries stray content, and copies the body text of a
self post. -/
theorem builder_selftext_empty_for_link_posts (s : String) (post : RawPost) :
    (post.is_self = false → (buildPostData s post).selftext = "") ∧
    (post.is_self = true → (buildPostData s post).selftext = post.selftext) := by
  constructor
  · intro h; simp [buildPostData, h]
  · intro h; simp [buildPostData, h]

/-- Witness for C8: the sample link post carries stray body text, yet its
record has an empty body; flipping the flag copies the body. -/
theorem builder_selftext_empty_for_link_posts_witness :
    (buildPostData "test" samplePost).selftext = "" ∧
    (buildPostData "test" { samplePost with is_self := true }).selftext = "stray body" :=
  ⟨(builder_selftext_empty_for_link_posts "test" samplePost).1 rfl,
   (builder_selftext_empty_for_link_posts "test" { samplePost with is_self := true }).2 rfl⟩

/-- C9: with no destination supplied, both writers synthesize the path from
the fixed prefix and the clock rendered through the format string
`%Y%m%d_%H%M%S` (that is, YYYYMMDD_HHMMSS), with the extension of their
kind; and `main` without `--output` defaults to the spreadsheet writer with
that synthesized name. -/
theorem default_output_is_timestamped (strftime : String → String) (df : DataFrame)
    (h : df.rows ≠ []) :
    (save_to_excel strftime df none).returnedPath =
      some ("reddit_top_posts_" ++ strftime "%Y%m%d_%H%M%S" ++ ".xlsx") ∧
    (save_to_csv strftime df none).returnedPath =
      some ("reddit_top_posts_" ++ strftime "%Y%m%d_%H%M%S" ++ ".csv") ∧
    (∀ client : RedditClient, ∀ args : Args, args.output = none →
      ∃ d, main client strftime args =
        Except.ok (save_to_excel strftime
          (DataFrame.mk (aggregated_records client args.limit args.time_filter
            args.subreddits)) none, d)) := by
  refine ⟨?_, ?_, ?_⟩
  · rw [save_to_excel_nonempty strftime df none h]; rfl
  · rw [save_to_csv_nonempty strftime df none h]; rfl
  · intro client args hout
    obtain ⟨d, hd⟩ := main_spec client strftime args
    rw [hout] at hd
    exact ⟨d, hd⟩

/-- Witness for C9: one record under the fixed clock resolves to the
timestamped default names. -/
theorem default_output_is_timestamped_witness :
    (save_to_excel fixedStrftime (DataFrame.mk [sampleRecord]) none).returnedPath =
      some "reddit_top_posts_20240101_120000.xlsx" ∧
    (save_to_csv fixedStrftime (DataFrame.mk [sampleRecord]) none).returnedPath =
      some "reddit_top_posts_20240101_120000.csv" := by
  have h := default_output_is_timestamped fixedStrftime (DataFrame.mk [sampleRecord])
    (by decide)
  exact ⟨h.1, h.2.1⟩

end RedditScraper
